import Mathlib

/-!
Shallow embedding of `fasterapi/scaffolder/generate_route.py`: the two
version resolvers, the route generator `create_route_file`, the text of the
route template it emits, and the runtime behaviour of the emitted list
endpoint. Filesystem state is passed explicitly as an `FS` value; machine
strings are Lean `String`s (ASCII model of Python's `str.lower`,
`str.capitalize` and `\d`); Python integers are `Int`.
-/

namespace FasterApi

/-- Python `part.capitalize()` (generate_route.py line 98, ASCII model),
over the character list: first character uppercased, the rest lowercased. -/
def pyCapitalize (cs : List Char) : List Char :=
  match cs with
  | [] => []
  | c :: t => c.toUpper :: t.map Char.toLower

/-- `db_name = name.lower()` (generate_route.py line 97, ASCII model). -/
def dbNameOf (name : String) : String :=
  String.mk (name.data.map Char.toLower)

/-- Python `db_name.split("_")` over the character list: split on
underscores, keeping empty parts (`"".split` gives one empty part). -/
def splitOnUnderscore : List Char → List (List Char)
  | [] => [[]]
  | c :: cs =>
      if c = '_' then [] :: splitOnUnderscore cs
      else
        match splitOnUnderscore cs with
        | [] => [[c]]
        | h :: t => (c :: h) :: t

/-- `class_name = "".join(part.capitalize() for part in db_name.split("_"))`
(generate_route.py line 98). -/
def classNameOf (db_name : String) : String :=
  String.mk (((splitOnUnderscore db_name.data).map pyCapitalize).foldl
    (fun acc part => acc ++ part) [])

/-- `re.match(r'^v\d+$', d)` (generate_route.py line 63), with `\d` modelled
as the ASCII digits. -/
def isVersionDirName (s : String) : Bool :=
  match s.data with
  | 'v' :: rest => !rest.isEmpty && rest.all Char.isDigit
  | _ => false

/-- Decimal value of a digit list, as `int` applied to a digit string. -/
def digitsToNat (cs : List Char) : Nat :=
  cs.foldl (fun a c => a * 10 + (c.toNat - 48)) 0

/-- `int(v[1:])` (generate_route.py line 69) on a `v<digits>` name. -/
def versionNumber (s : String) : Nat := digitsToNat (s.data.drop 1)

/-- One immediate subdirectory of `<base>/api`: its name and its filesystem
modification time (`os.path.getmtime`). -/
structure DirEntry where
  name : String
  mtime : Nat
deriving DecidableEq

/-- The slice of filesystem state that generate_route.py consults.
`apiSubdirs` holds exactly the immediate subdirectories of `<base>/api`
(both resolvers filter out non-directories with `os.path.isdir`);
`existingFiles` the set of existing files; `writeFails`/`writeError` model
whether `mkdir`/`open`/`write` raises, and the exception's text. -/
structure FS where
  apiDirExists : Bool
  apiSubdirs : List DirEntry
  existingFiles : List String
  writeFails : Bool
  writeError : String
deriving DecidableEq

/-- `path.exists()` over the explicit file set. -/
def FS.hasFile (fs : FS) (p : String) : Bool := fs.existingFiles.contains p

/-- Python `max(x :: xs, key=k)`: the first element with the greatest key
(a later element replaces the current best only on a strictly greater key). -/
def pyMaxBy (k : α → Nat) (x : α) (xs : List α) : α :=
  xs.foldl (fun best y => if k y > k best then y else best) x

/-- `<base>/api` (generate_route.py lines 21-24 and 53-56; `base` abstracts
the resolved absolute base path). -/
def apiPath (base : String) : String := base ++ "/api"

/-- `get_latest_modified_api_version` (generate_route.py lines 8-38) over
the FS model: error if `<base>/api` is missing or has no subdirectory, else
the name of the subdirectory with the maximum mtime. -/
def get_latest_modified_api_version (base : String) (fs : FS) :
    Except String String :=
  if !fs.apiDirExists then
    .error ("The directory '" ++ apiPath base ++ "' does not exist.")
  else
    match fs.apiSubdirs with
    | [] => .error ("No version folders found in '" ++ apiPath base ++ "'.")
    | d :: ds => .ok (pyMaxBy DirEntry.mtime d ds).name

/-- `get_highest_numbered_api_version` (generate_route.py lines 40-69) over
the FS model: error if `<base>/api` is missing or no subdirectory name
matches `^v\d+$`, else the matching name with the greatest integer suffix. -/
def get_highest_numbered_api_version (base : String) (fs : FS) :
    Except String String :=
  if !fs.apiDirExists then
    .error ("The directory '" ++ apiPath base ++ "' does not exist.")
  else
    match (fs.apiSubdirs.map DirEntry.name).filter isVersionDirName with
    | [] =>
        .error ("No version folders like 'v1', 'v2' found in '" ++
          apiPath base ++ "'.")
    | v :: vs => .ok (pyMaxBy versionNumber v vs)

/-- The f-string `route_code` of generate_route.py lines 121-258, evaluated:
`{db_name}`/`{class_name}` are spliced in, `{{...}}` becomes a literal brace
pair, and the stray single-braced `{id}` on line 227 interpolates Python's
builtin `id` function, printing as `<built-in function id>`. Literal braces
are written with `\x7b`/`\x7d` escapes. -/
def route_code (db_name class_name : String) : String :=
  "\nfrom fastapi import APIRouter, HTTPException, Query, Path, status\n" ++
  "from typing import List, Optional\n" ++
  "from schemas.response_schema import APIResponse\n" ++
  "from schemas." ++ db_name ++ " import (\n" ++
  "    " ++ class_name ++ "Create,\n" ++
  "    " ++ class_name ++ "Out,\n" ++
  "    " ++ class_name ++ "Base,\n" ++
  "    " ++ class_name ++ "Update,\n" ++
  ")\n" ++
  "from services." ++ db_name ++ "_service import (\n" ++
  "    add_" ++ db_name ++ ",\n" ++
  "    remove_" ++ db_name ++ ",\n" ++
  "    retrieve_" ++ db_name ++ "s,\n" ++
  "    retrieve_" ++ db_name ++ "_by_" ++ db_name ++ "_id,\n" ++
  "    update_" ++ db_name ++ "_by_id,\n" ++
  ")\n" ++
  "\n" ++
  "router = APIRouter(prefix=\"/" ++ db_name ++ "s\", tags=[\"" ++
    class_name ++ "s\"])\n" ++
  "\n" ++
  "\n" ++
  "# ------------------------------\n" ++
  "# List " ++ class_name ++ "s (with pagination)\n" ++
  "# ------------------------------\n" ++
  "@router.get(\"/\", response_model=APIResponse[List[" ++ class_name ++
    "Out]])\n" ++
  "async def list_" ++ db_name ++ "s(\n" ++
  "    start: Optional[int] = Query(None, description=\"Start index for range-based pagination\"),\n" ++
  "    stop: Optional[int] = Query(None, description=\"Stop index for range-based pagination\"),\n" ++
  "    page_number: Optional[int] = Query(None, description=\"Page number for page-based pagination (0-indexed)\")\n" ++
  "):\n" ++
  "    \"\"\"\n" ++
  "    Retrieves a list of " ++ class_name ++ "s with pagination.\n" ++
  "    - Priority 1: Range-based (start/stop)\n" ++
  "    - Priority 2: Page-based (page_number)\n" ++
  "    - Priority 3: Default (first 100)\n" ++
  "    \"\"\"\n" ++
  "    PAGE_SIZE = 50\n" ++
  "\n" ++
  "    # Case 1: Prefer start/stop if provided\n" ++
  "    if start is not None or stop is not None:\n" ++
  "        if start is None or stop is None:\n" ++
  "            raise HTTPException(status_code=status.HTTP_400_BAD_REQUEST, detail=\"Both 'start' and 'stop' must be provided together.\")\n" ++
  "        if stop < start:\n" ++
  "            raise HTTPException(status_code=status.HTTP_400_BAD_REQUEST, detail=\"'stop' cannot be less than 'start'.\")\n" ++
  "        \n" ++
  "        items = await retrieve_" ++ db_name ++ "s(start=start, stop=stop)\n" ++
  "        return APIResponse(status_code=status.HTTP_200_OK, data=items, detail=\"Fetched successfully\")\n" ++
  "\n" ++
  "    # Case 2: Use page_number if provided\n" ++
  "    elif page_number is not None:\n" ++
  "        if page_number < 0:\n" ++
  "            raise HTTPException(status_code=status.HTTP_400_BAD_REQUEST, detail=\"'page_number' cannot be negative.\")\n" ++
  "        \n" ++
  "        start_index = page_number * PAGE_SIZE\n" ++
  "        stop_index = start_index + PAGE_SIZE\n" ++
  "        items = await retrieve_" ++ db_name ++ "s(start=start_index, stop=stop_index)\n" ++
  "        return APIResponse(status_code=status.HTTP_200_OK, data=items, detail=f\"Fetched page \x7bpage_number\x7d successfully\")\n" ++
  "\n" ++
  "    # Case 3: Default (no params)\n" ++
  "    else:\n" ++
  "        items = await retrieve_" ++ db_name ++ "s(start=0, stop=100)\n" ++
  "        return APIResponse(status_code=status.HTTP_200_OK, data=items, detail=\"Fetched first 100 records successfully\")\n" ++
  "\n" ++
  "\n" ++
  "# ------------------------------\n" ++
  "# Retrieve a single " ++ class_name ++ "\n" ++
  "# ------------------------------\n" ++
  "\n" ++
  "\n" ++
  "@router.get(\"/\x7bid\x7d\", response_model=APIResponse[" ++ class_name ++
    "Out])\n" ++
  "async def get_" ++ db_name ++ "_by_id(\n" ++
  "    id: str = Path(..., description=\"" ++ db_name ++ " ID to fetch specific item\")\n" ++
  "):\n" ++
  "    \"\"\"\n" ++
  "    Retrieves a single " ++ class_name ++ " by its ID.\n" ++
  "    \"\"\"\n" ++
  "    item = await retrieve_" ++ db_name ++ "_by_" ++ db_name ++ "_id(id=id)\n" ++
  "    if not item:\n" ++
  "        raise HTTPException(status_code=status.HTTP_404_NOT_FOUND, detail=f\"" ++ class_name ++ " not found\")\n" ++
  "    return APIResponse(status_code=status.HTTP_200_OK, data=item, detail=\"" ++ db_name ++ " item fetched\")\n" ++
  "\n" ++
  "\n" ++
  "# ------------------------------\n" ++
  "# Create a new " ++ class_name ++ "\n" ++
  "# ------------------------------\n" ++
  "@router.post(\"/\", response_model=APIResponse[" ++ class_name ++
    "Out], status_code=status.HTTP_201_CREATED)\n" ++
  "async def create_" ++ db_name ++ "(payload: " ++ class_name ++ "Base):\n" ++
  "    \"\"\"\n" ++
  "    Creates a new " ++ class_name ++ ".\n" ++
  "    \"\"\"\n" ++
  "    new_data = " ++ class_name ++ "Create(**payload.model_dump())\n" ++
  "    new_item = await add_" ++ db_name ++ "(new_data)\n" ++
  "    if not new_item:\n" ++
  "        raise HTTPException(status_code=status.HTTP_400_BAD_REQUEST, detail=f\"Failed to create " ++ db_name ++ "\")\n" ++
  "    \n" ++
  "    # Note: The 201 status is set in the decorator, but the response body is still returned.\n" ++
  "    return APIResponse(status_code=status.HTTP_201_CREATED, data=new_item, detail=f\"" ++ class_name ++ " created successfully\")\n" ++
  "\n" ++
  "\n" ++
  "# ------------------------------\n" ++
  "# Update an existing " ++ class_name ++ "\n" ++
  "# ------------------------------\n" ++
  "# RECOMMENDATION 2:\n" ++
  "# 1. Changed verb from PUT to PATCH. PUT implies full replacement, while\n" ++
  "#    an 'Update' schema usually means partial updates, which is what PATCH is for.\n" ++
  "# 2. Removed ' = None' from the payload. An update request should have a body.\n" ++
  "@router.patch(\"/<built-in function id>\", response_model=APIResponse[" ++
    class_name ++ "Out])\n" ++
  "async def update_" ++ db_name ++ "(\n" ++
  "    id: str = Path(..., description=\"ID of the " ++ db_name ++ " to update\"),\n" ++
  "    payload: " ++ class_name ++ "Update\n" ++
  "):\n" ++
  "    \"\"\"\n" ++
  "    Updates an existing " ++ class_name ++ " by its ID.\n" ++
  "    Assumes the service layer handles partial updates (e.g., ignores None fields in payload).\n" ++
  "    \"\"\"\n" ++
  "    updated_item = await update_" ++ db_name ++ "_by_id(id=id, data=payload)\n" ++
  "    if not updated_item:\n" ++
  "        raise HTTPException(status_code=status.HTTP_404_NOT_FOUND, detail=f\"" ++ class_name ++ " not found or update failed\")\n" ++
  "    \n" ++
  "    return APIResponse(status_code=status.HTTP_200_OK, data=updated_item, detail=f\"" ++ class_name ++ " updated successfully\")\n" ++
  "\n" ++
  "\n" ++
  "# ------------------------------\n" ++
  "# Delete an existing " ++ class_name ++ "\n" ++
  "# ------------------------------\n" ++
  "@router.delete(\"/\x7bid\x7d\", response_model=APIResponse[None])\n" ++
  "async def delete_" ++ db_name ++ "(id: str = Path(..., description=\"ID of the " ++ db_name ++ " to delete\")):\n" ++
  "    \"\"\"\n" ++
  "    Deletes an existing " ++ class_name ++ " by its ID.\n" ++
  "    \"\"\"\n" ++
  "    deleted = await remove_" ++ db_name ++ "(id)\n" ++
  "    if not deleted:\n" ++
  "        # This assumes remove_" ++ db_name ++ " returns a boolean or similar\n" ++
  "        # to indicate if deletion was successful (i.e., item was found).\n" ++
  "        raise HTTPException(status_code=status.HTTP_404_NOT_FOUND, detail=f\"" ++ class_name ++ " not found or deletion failed\")\n" ++
  "    \n" ++
  "    return APIResponse(status_code=status.HTTP_200_OK, data=None, detail=f\"" ++ class_name ++ " deleted successfully\")\n"

/-- `<base>/schemas/<db_name>.py` (generate_route.py line 101). -/
def schemaPathOf (base db_name : String) : String :=
  base ++ "/schemas/" ++ db_name ++ ".py"

/-- `<base>/services/<db_name>_service.py` (generate_route.py line 102). -/
def servicePathOf (base db_name : String) : String :=
  base ++ "/services/" ++ db_name ++ "_service.py"

/-- `<base>/repositories/<db_name>.py` (generate_route.py line 103). -/
def repoPathOf (base db_name : String) : String :=
  base ++ "/repositories/" ++ db_name ++ ".py"

/-- `<base>/api/<version>/<db_name>.py` (generate_route.py line 104). -/
def routePathOf (base version db_name : String) : String :=
  base ++ "/api/" ++ version ++ "/" ++ db_name ++ ".py"

/-- What one run of `create_route_file` produces: its boolean return value,
the lines it prints, and the file it writes (path and text), if any. -/
structure GenResult where
  ok : Bool
  messages : List String
  written : Option (String × String)
deriving DecidableEq

/-- `create_route_file` (generate_route.py lines 71-271) over the FS model.
`version` is the optional argument; Python's `if not version:` treats both
`None` and the empty string as absent and resolves through
`get_highest_numbered_api_version`, returning `False` after printing the
exception's text on `FileNotFoundError`. The three prerequisite files are
then checked in the order schema, service, repository, stopping at the
first miss; finally `mkdir(parents=True, exist_ok=True)` plus `open("w")`
either raises (modelled by `fs.writeFails`) or writes the rendered
template, overwriting whatever was at the path. The `sys.path.append` side
effect and the unused dynamic import are omitted. -/
def create_route_file (name : String) (version : Option String)
    (base : String) (fs : FS) : GenResult :=
  let resolved : Except String String :=
    match version with
    | none => get_highest_numbered_api_version base fs
    | some v =>
        if v = "" then get_highest_numbered_api_version base fs else .ok v
  match resolved with
  | .error e => ⟨false, ["❌ " ++ e], none⟩
  | .ok v =>
    let db_name := dbNameOf name
    let class_name := classNameOf db_name
    let schema_path := schemaPathOf base db_name
    let service_path := servicePathOf base db_name
    let repo_path := repoPathOf base db_name
    let route_path := routePathOf base v db_name
    if !fs.hasFile schema_path then
      ⟨false, ["❌ " ++ ("Schema file " ++ schema_path ++ " not found.")],
        none⟩
    else if !fs.hasFile service_path then
      ⟨false, ["❌ " ++ ("Service file " ++ service_path ++ " not found.")],
        none⟩
    else if !fs.hasFile repo_path then
      ⟨false,
        ["❌ " ++ ("Repository file " ++ repo_path ++ " not found.")], none⟩
    else if fs.writeFails then
      ⟨false, ["❌ " ++ ("Failed to write route file: " ++ fs.writeError)],
        none⟩
    else
      ⟨true, ["✅ Route file created: " ++ route_path],
        some (route_path, route_code db_name class_name)⟩

/-- What one request to the emitted list endpoint does: raise an
HTTPException with a status, or call `retrieve_<db_name>s(start, stop)` and
return the `APIResponse` envelope with the given `status_code` and
`detail`. -/
inductive ListOutcome where
  | httpError (status : Nat) (detail : String)
  | fetched (rangeStart rangeStop : Int) (envelopeStatus : Nat)
      (detail : String)
deriving DecidableEq

/-- Runtime behaviour of the list handler emitted into every route file
(the code of `async def list_<db_name>s`, generate_route.py lines 145-182):
range pagination first (both bounds or 400, `stop < start` is 400), then
page pagination (negative is 400, else `[p*50, p*50+50)` with
`PAGE_SIZE = 50`), else the default `[0, 100)`. -/
def list_endpoint (start stop page_number : Option Int) : ListOutcome :=
  if start.isSome || stop.isSome then
    match start, stop with
    | some s, some t =>
        if t < s then
          .httpError 400 "'stop' cannot be less than 'start'."
        else
          .fetched s t 200 "Fetched successfully"
    | _, _ =>
        .httpError 400 "Both 'start' and 'stop' must be provided together."
  else
    match page_number with
    | some p =>
        if p < 0 then
          .httpError 400 "'page_number' cannot be negative."
        else
          .fetched (p * 50) (p * 50 + 50) 200
            ("Fetched page " ++ toString p ++ " successfully")
    | none => .fetched 0 100 200 "Fetched first 100 records successfully"

/-- `needle` occurs as a contiguous substring of `hay`. -/
def StrContains (hay needle : String) : Prop :=
  ∃ a b : String, a ++ (needle ++ b) = hay

/-- The three prerequisite files for resource `x` under base `b`. -/
def prereqX : List String :=
  ["b/schemas/x.py", "b/services/x_service.py", "b/repositories/x.py"]

/-- A filesystem with no `api` directory but all three prerequisite files
for resource `x` under base `b`. -/
def fsNoApi : FS := ⟨false, [], prereqX, false, ""⟩

/-- A filesystem with `api/v1`, the prerequisites for `x` under base `b`,
and a failing write. -/
def fsWriteFail : FS := ⟨true, [⟨"v1", 0⟩], prereqX, true, "disk full"⟩

/-- The three prerequisite files for resource `order_item` under base `b`. -/
def prereqOrderItem : List String :=
  ["b/schemas/order_item.py", "b/services/order_item_service.py",
   "b/repositories/order_item.py"]

/-- A filesystem with `api/v1` and the prerequisites for `order_item`
under base `b`. -/
def fsOrderItem : FS := ⟨true, [⟨"v1", 0⟩], prereqOrderItem, false, ""⟩

/-- The version-folder names `v1` … `vn`. -/
def vNames (n : Nat) : List String :=
  (List.range n).map (fun i => "v" ++ toString (i + 1))

/-- A filesystem with `api/v1` where the schema and service files for `x`
exist but the repository file does not. -/
def fsRepoMissing : FS :=
  ⟨true, [⟨"v1", 0⟩], ["b/schemas/x.py", "b/services/x_service.py"],
    false, ""⟩

/-- A filesystem with no `api` directory but the prerequisites for
`order_item` under base `b`. -/
def fsOrderItemNoApi : FS := ⟨false, [], prereqOrderItem, false, ""⟩

/-- A filesystem whose `api` directory holds the folders `v2` and `v10`. -/
def fsV2V10 : FS := ⟨true, [⟨"v2", 0⟩, ⟨"v10", 5⟩], [], false, ""⟩

/-- A filesystem whose `api` directory holds three folders with distinct
modification times. -/
def fsMtimes : FS :=
  ⟨true, [⟨"alpha", 5⟩, ⟨"zz", 9⟩, ⟨"beta", 7⟩], [], false, ""⟩

theorem pyMaxBy_cons (k : α → Nat) (x y : α) (ys : List α) :
    pyMaxBy k x (y :: ys) =
      pyMaxBy k (if k y > k x then y else x) ys := rfl

theorem pyMaxBy_mem (k : α → Nat) (x : α) (xs : List α) :
    pyMaxBy k x xs ∈ x :: xs := by
  induction xs generalizing x with
  | nil => simp [pyMaxBy]
  | cons y ys ih =>
      rw [pyMaxBy_cons]
      have h := ih (if k y > k x then y else x)
      rcases List.mem_cons.mp h with h1 | h1
      · rw [h1]
        split
        · exact List.mem_cons_of_mem _ (List.mem_cons_self _ _)
        · exact List.mem_cons_self _ _
      · exact List.mem_cons_of_mem _ (List.mem_cons_of_mem _ h1)

theorem pyMaxBy_le (k : α → Nat) (x : α) (xs : List α) :
    ∀ y ∈ x :: xs, k y ≤ k (pyMaxBy k x xs) := by
  induction xs generalizing x with
  | nil =>
      intro y hy
      rw [List.mem_singleton] at hy
      subst hy
      exact Nat.le_refl _
  | cons z zs ih =>
      intro y hy
      rw [pyMaxBy_cons]
      have hx : k x ≤ k (if k z > k x then z else x) := by
        split <;> omega
      have hz : k z ≤ k (if k z > k x then z else x) := by
        split <;> omega
      have hhead := ih (if k z > k x then z else x) _
        (List.mem_cons_self _ _)
      rcases List.mem_cons.mp hy with h1 | h1
      · subst h1
        exact Nat.le_trans hx hhead
      · rcases List.mem_cons.mp h1 with h2 | h2
        · subst h2
          exact Nat.le_trans hz hhead
        · exact ih (if k z > k x then z else x) _
            (List.mem_cons_of_mem _ h2)

theorem StrContains.cons (x : String) {hay needle : String}
    (h : StrContains hay needle) : StrContains (x ++ hay) needle := by
  obtain ⟨a, b, hab⟩ := h
  exact ⟨x ++ a, b, by rw [String.append_assoc, hab]⟩

/-- The needle sits inside the head chunk of the haystack, with the given
text before and after it inside that chunk. -/
theorem strContains_at (pre tail : String) {leaf rest needle : String}
    (h : leaf = pre ++ (needle ++ tail)) :
    StrContains (leaf ++ rest) needle := by
  refine ⟨pre, tail ++ rest, ?_⟩
  rw [h]
  simp [String.append_assoc]

/-- The needle is exactly the first seven chunks of the haystack. -/
theorem strContains_seven {a b c d e f g rest needle : String}
    (hn : needle = a ++ (b ++ (c ++ (d ++ (e ++ (f ++ g)))))) :
    StrContains (a ++ (b ++ (c ++ (d ++ (e ++ (f ++ (g ++ rest)))))))
      needle := by
  refine ⟨"", rest, ?_⟩
  rw [hn]
  simp [String.append_assoc]

/-- C1: the list endpoint emitted into every generated route file implements
the pagination contract: if exactly one of start/stop is supplied the request
fails with HTTP 400; if both are supplied and stop < start it fails with 400;
if both are supplied and stop >= start it fetches the range [start, stop); if
page_number is supplied and negative it fails with 400; if supplied and
non-negative it fetches [page_number*50, page_number*50+50); with no
parameter it fetches [0, 100) — and every success case returns the
status-200 envelope. -/
theorem list_endpoint_pagination_contract (s t p : Option Int) :
    ((∃ a, s = some a ∧ t = none) ∨ (s = none ∧ ∃ b, t = some b) →
      ∃ d, list_endpoint s t p = .httpError 400 d)
  ∧ (∀ a b : Int, s = some a → t = some b → b < a →
      ∃ d, list_endpoint s t p = .httpError 400 d)
  ∧ (∀ a b : Int, s = some a → t = some b → a ≤ b →
      list_endpoint s t p = .fetched a b 200 "Fetched successfully")
  ∧ (∀ q : Int, s = none → t = none → p = some q → q < 0 →
      ∃ d, list_endpoint s t p = .httpError 400 d)
  ∧ (∀ q : Int, s = none → t = none → p = some q → 0 ≤ q →
      list_endpoint s t p =
        .fetched (q * 50) (q * 50 + 50) 200
          ("Fetched page " ++ toString q ++ " successfully"))
  ∧ (s = none → t = none → p = none →
      list_endpoint s t p =
        .fetched 0 100 200 "Fetched first 100 records successfully") := by
  refine ⟨?_, ?_, ?_, ?_, ?_, ?_⟩
  · rintro (⟨a, rfl, rfl⟩ | ⟨rfl, b, rfl⟩) <;> exact ⟨_, rfl⟩
  · rintro a b rfl rfl h
    rw [show list_endpoint (some a) (some b) p =
        (if b < a then ListOutcome.httpError 400
            "'stop' cannot be less than 'start'."
          else .fetched a b 200 "Fetched successfully") from rfl,
      if_pos h]
    exact ⟨_, rfl⟩
  · rintro a b rfl rfl h
    rw [show list_endpoint (some a) (some b) p =
        (if b < a then ListOutcome.httpError 400
            "'stop' cannot be less than 'start'."
          else .fetched a b 200 "Fetched successfully") from rfl,
      if_neg (by omega)]
  · rintro q rfl rfl rfl h
    rw [show list_endpoint none none (some q) =
        (if q < 0 then ListOutcome.httpError 400
            "'page_number' cannot be negative."
          else .fetched (q * 50) (q * 50 + 50) 200
            ("Fetched page " ++ toString q ++ " successfully")) from rfl,
      if_pos h]
    exact ⟨_, rfl⟩
  · rintro q rfl rfl rfl h
    rw [show list_endpoint none none (some q) =
        (if q < 0 then ListOutcome.httpError 400
            "'page_number' cannot be negative."
          else .fetched (q * 50) (q * 50 + 50) 200
            ("Fetched page " ++ toString q ++ " successfully")) from rfl,
      if_neg (by omega)]
  · rintro rfl rfl rfl
    rfl

/-- Witness for C1 at the spec's own example requests: start=5 alone is 400,
start=10 stop=5 is 400, page_number=-1 is 400, start=1 stop=3 fetches
[1, 3), page_number=2 fetches [100, 150), and no parameters fetches
[0, 100). -/
theorem list_endpoint_pagination_contract_witness :
    (∃ d, list_endpoint (some 5) none none = ListOutcome.httpError 400 d)
  ∧ (∃ d, list_endpoint (some 10) (some 5) none =
      ListOutcome.httpError 400 d)
  ∧ list_endpoint (some 1) (some 3) none =
      .fetched 1 3 200 "Fetched successfully"
  ∧ (∃ d, list_endpoint none none (some (-1)) =
      ListOutcome.httpError 400 d)
  ∧ list_endpoint none none (some 2) =
      .fetched (2 * 50) (2 * 50 + 50) 200
        ("Fetched page " ++ toString (2 : Int) ++ " successfully")
  ∧ list_endpoint none none none =
      .fetched 0 100 200 "Fetched first 100 records successfully" :=
  ⟨(list_endpoint_pagination_contract (some 5) none none).1
      (Or.inl ⟨5, rfl, rfl⟩),
   (list_endpoint_pagination_contract (some 10) (some 5) none).2.1
      10 5 rfl rfl (by decide),
   (list_endpoint_pagination_contract (some 1) (some 3) none).2.2.1
      1 3 rfl rfl (by decide),
   (list_endpoint_pagination_contract none none (some (-1))).2.2.2.1
      (-1) rfl rfl rfl (by decide),
   (list_endpoint_pagination_contract none none (some 2)).2.2.2.2.1
      2 rfl rfl rfl (by decide),
   (list_endpoint_pagination_contract none none none).2.2.2.2.2
      (by rfl) (by rfl) (by rfl)⟩

/-- C9: latest_modified lists the immediate subdirectories of `<base>/api`;
it fails with the not-found error when `<base>/api` does not exist or has no
subdirectory, and otherwise returns the name of a subdirectory whose
filesystem modification time is maximal. -/
theorem latest_modified_max_mtime (base : String) (fs : FS) :
    (fs.apiDirExists = false →
      get_latest_modified_api_version base fs =
        .error ("The directory '" ++ apiPath base ++ "' does not exist."))
  ∧ (fs.apiDirExists = true → fs.apiSubdirs = [] →
      get_latest_modified_api_version base fs =
        .error ("No version folders found in '" ++ apiPath base ++ "'."))
  ∧ (fs.apiDirExists = true → fs.apiSubdirs ≠ [] →
      ∃ e ∈ fs.apiSubdirs,
        get_latest_modified_api_version base fs = .ok e.name ∧
        ∀ e' ∈ fs.apiSubdirs, e'.mtime ≤ e.mtime) := by
  refine ⟨?_, ?_, ?_⟩
  · intro h
    simp [get_latest_modified_api_version, h]
  · intro h1 h2
    simp [get_latest_modified_api_version, h1, h2]
  · intro h1 h2
    obtain ⟨d, ds, hds⟩ := List.exists_cons_of_ne_nil h2
    refine ⟨pyMaxBy DirEntry.mtime d ds, ?_, ?_, ?_⟩
    · rw [hds]
      exact pyMaxBy_mem _ _ _
    · simp [get_latest_modified_api_version, h1, hds]
    · intro e' he'
      rw [hds] at he'
      exact pyMaxBy_le _ _ _ _ he'

/-- Witness for C9: on folders alpha (mtime 5), zz (mtime 9), beta (mtime 7)
the resolver returns the entry with the maximal mtime. -/
theorem latest_modified_max_mtime_witness :
    ∃ e ∈ fsMtimes.apiSubdirs,
      get_latest_modified_api_version "b" fsMtimes = .ok e.name ∧
      ∀ e' ∈ fsMtimes.apiSubdirs, e'.mtime ≤ e.mtime :=
  (latest_modified_max_mtime "b" fsMtimes).2.2 rfl (by decide)

/-- C3: highest_numbered considers exactly the immediate subdirectories of
`<base>/api` whose names match `v` followed by one or more digits; if none
match it fails with the not-found error; otherwise it returns a matching
name with the greatest integer suffix under numeric comparison — on
\x7bv2, v10\x7d it returns v10, and on v1..v20 in any listing order it
returns v20. -/
theorem highest_numbered_numeric_max (base : String) (fs : FS) :
    (fs.apiDirExists = false →
      get_highest_numbered_api_version base fs =
        .error ("The directory '" ++ apiPath base ++ "' does not exist."))
  ∧ (fs.apiDirExists = true →
     (fs.apiSubdirs.map DirEntry.name).filter isVersionDirName = [] →
      get_highest_numbered_api_version base fs =
        .error ("No version folders like 'v1', 'v2' found in '" ++
          apiPath base ++ "'."))
  ∧ (fs.apiDirExists = true →
     ∀ v vs, (fs.apiSubdirs.map DirEntry.name).filter isVersionDirName
        = v :: vs →
      ∃ w, get_highest_numbered_api_version base fs = .ok w ∧
        w ∈ v :: vs ∧ isVersionDirName w = true ∧
        ∀ u ∈ v :: vs, versionNumber u ≤ versionNumber w)
  ∧ (fs.apiDirExists = true →
     fs.apiSubdirs.map DirEntry.name = ["v2", "v10"] →
      get_highest_numbered_api_version base fs = .ok "v10")
  ∧ (fs.apiDirExists = true →
     (fs.apiSubdirs.map DirEntry.name).Perm (vNames 20) →
      get_highest_numbered_api_version base fs = .ok "v20") := by
  refine ⟨?_, ?_, ?_, ?_, ?_⟩
  · intro h
    simp [get_highest_numbered_api_version, h]
  · intro h1 h2
    simp [get_highest_numbered_api_version, h1, h2]
  · intro h1 v vs h2
    refine ⟨pyMaxBy versionNumber v vs, ?_, ?_, ?_, ?_⟩
    · simp [get_highest_numbered_api_version, h1, h2]
    · exact pyMaxBy_mem _ _ _
    · have hmem := pyMaxBy_mem versionNumber v vs
      rw [← h2] at hmem
      exact List.of_mem_filter hmem
    · exact pyMaxBy_le _ _ _
  · intro h1 h2
    simp [get_highest_numbered_api_version, h1, h2, pyMaxBy,
      isVersionDirName, versionNumber, digitsToNat]
  · intro h1 hperm
    have hall : ∀ s ∈ vNames 20, isVersionDirName s = true := by decide
    have hfilter : (fs.apiSubdirs.map DirEntry.name).filter isVersionDirName
        = fs.apiSubdirs.map DirEntry.name :=
      List.filter_eq_self.mpr fun a ha => hall a (hperm.mem_iff.mp ha)
    have hlen : (fs.apiSubdirs.map DirEntry.name).length = 20 := by
      rw [hperm.length_eq]
      decide
    cases hL : fs.apiSubdirs.map DirEntry.name with
    | nil =>
        rw [hL] at hlen
        simp at hlen
    | cons v vs =>
        rw [hL] at hfilter hperm
        have hres : get_highest_numbered_api_version base fs =
            .ok (pyMaxBy versionNumber v vs) := by
          simp [get_highest_numbered_api_version, h1, hL, hfilter]
        have hwmem : pyMaxBy versionNumber v vs ∈ v :: vs :=
          pyMaxBy_mem _ _ _
        have hwmem20 : pyMaxBy versionNumber v vs ∈ vNames 20 :=
          hperm.mem_iff.mp hwmem
        have h20mem : "v20" ∈ v :: vs := hperm.mem_iff.mpr (by decide)
        have hge : versionNumber "v20" ≤
            versionNumber (pyMaxBy versionNumber v vs) :=
          pyMaxBy_le _ _ _ _ h20mem
        have hub : ∀ s ∈ vNames 20, versionNumber s ≤ 20 := by decide
        have huniq : ∀ s ∈ vNames 20, 20 ≤ versionNumber s → s = "v20" := by
          decide
        have hv20 : versionNumber "v20" = 20 := by decide
        have hw20 : pyMaxBy versionNumber v vs = "v20" :=
          huniq _ hwmem20 (by omega)
        rw [hres, hw20]

/-- Witness for C3: on the folder set \x7bv2, v10\x7d the resolver returns
v10 under numeric comparison. -/
theorem highest_numbered_numeric_max_witness :
    get_highest_numbered_api_version "b" fsV2V10 = .ok "v10" :=
  (highest_numbered_numeric_max "b" fsV2V10).2.2.2.1 rfl rfl

/-- C5: the prerequisite files are checked in the fixed order schema,
service, repository, stopping and reporting at the first missing file: the
failure names exactly that file. -/
theorem prerequisite_check_order (name v base : String) (fs : FS)
    (hv : v ≠ "") :
    (fs.hasFile (schemaPathOf base (dbNameOf name)) = false →
      create_route_file name (some v) base fs =
        ⟨false, ["❌ " ++ ("Schema file " ++
          schemaPathOf base (dbNameOf name) ++ " not found.")], none⟩)
  ∧ (fs.hasFile (schemaPathOf base (dbNameOf name)) = true →
     fs.hasFile (servicePathOf base (dbNameOf name)) = false →
      create_route_file name (some v) base fs =
        ⟨false, ["❌ " ++ ("Service file " ++
          servicePathOf base (dbNameOf name) ++ " not found.")], none⟩)
  ∧ (fs.hasFile (schemaPathOf base (dbNameOf name)) = true →
     fs.hasFile (servicePathOf base (dbNameOf name)) = true →
     fs.hasFile (repoPathOf base (dbNameOf name)) = false →
      create_route_file name (some v) base fs =
        ⟨false, ["❌ " ++ ("Repository file " ++
          repoPathOf base (dbNameOf name) ++ " not found.")], none⟩) := by
  refine ⟨?_, ?_, ?_⟩
  · intro h1
    simp [create_route_file, hv, h1]
  · intro h1 h2
    simp [create_route_file, hv, h1, h2]
  · intro h1 h2 h3
    simp [create_route_file, hv, h1, h2, h3]

/-- Witness for C5: with schema and service present and the repository file
missing, the reported failure identifies the repository file. -/
theorem prerequisite_check_order_witness :
    create_route_file "x" (some "v1") "b" fsRepoMissing =
      ⟨false, ["❌ " ++ ("Repository file " ++
        repoPathOf "b" (dbNameOf "x") ++ " not found.")], none⟩ :=
  (prerequisite_check_order "x" "v1" "b" fsRepoMissing (by decide)).2.2
    (by rfl) (by rfl) (by rfl)

/-- C6: with no version supplied, the version is resolved exclusively by
highest_numbered: its error aborts generation with that error reported, its
answer is used exactly as an explicit version would be, and the result never
depends on the modification times — the only data latest_modified consults
beyond the names — so the generator never falls back to latest_modified. -/
theorem version_resolution_uses_highest_only (name base : String)
    (fs : FS) :
    (∀ e, get_highest_numbered_api_version base fs = .error e →
      create_route_file name none base fs = ⟨false, ["❌ " ++ e], none⟩)
  ∧ (∀ v, get_highest_numbered_api_version base fs = .ok v →
      create_route_file name none base fs =
        create_route_file name (some v) base fs)
  ∧ (∀ fs' : FS, fs'.apiDirExists = fs.apiDirExists →
      fs'.apiSubdirs.map DirEntry.name = fs.apiSubdirs.map DirEntry.name →
      fs'.existingFiles = fs.existingFiles →
      fs'.writeFails = fs.writeFails →
      fs'.writeError = fs.writeError →
      create_route_file name none base fs' =
        create_route_file name none base fs) := by
  refine ⟨?_, ?_, ?_⟩
  · intro e he
    simp [create_route_file, he]
  · intro v hres
    by_cases hv0 : v = ""
    · subst hv0
      simp [create_route_file, hres]
    · simp [create_route_file, hres, hv0]
  · intro fs' h1 h2 h3 h4 h5
    have hres : get_highest_numbered_api_version base fs' =
        get_highest_numbered_api_version base fs := by
      simp [get_highest_numbered_api_version, h1, h2]
    simp [create_route_file, FS.hasFile, hres, h3, h4, h5]

/-- Witness for C6: with no `api` directory the no-version call aborts with
the resolver's not-found error. -/
theorem version_resolution_uses_highest_only_witness :
    create_route_file "x" none "b" fsNoApi =
      ⟨false, ["❌ " ++ ("The directory '" ++ apiPath "b" ++
        "' does not exist.")], none⟩ :=
  (version_resolution_uses_highest_only "x" "b" fsNoApi).1 _ rfl

/-- C7: db_name is the lowercase of name, class_name is obtained by
splitting db_name on underscores and capitalizing each part (order_item
gives OrderItem), and class_name is a deterministic function of db_name;
the successful generation writes exactly these derived identifiers into the
route file. -/
theorem name_derivation (name v base : String) (fs : FS) (hv : v ≠ "")
    (hok : (create_route_file name (some v) base fs).ok = true) :
    (create_route_file name (some v) base fs).written =
      some (routePathOf base v (dbNameOf name),
        route_code (dbNameOf name) (classNameOf (dbNameOf name)))
  ∧ dbNameOf name = name.toLower
  ∧ classNameOf (dbNameOf name) =
      String.mk (((splitOnUnderscore (dbNameOf name).data).map
        pyCapitalize).foldl (fun acc part => acc ++ part) [])
  ∧ classNameOf "order_item" = "OrderItem"
  ∧ (∀ n₁ n₂ : String, dbNameOf n₁ = dbNameOf n₂ →
      classNameOf (dbNameOf n₁) = classNameOf (dbNameOf n₂)) := by
  refine ⟨?_, (String.map_eq Char.toLower name).symm, rfl, by rfl,
    fun n₁ n₂ h => by rw [h]⟩
  cases hs : fs.hasFile (schemaPathOf base (dbNameOf name)) with
  | false => simp [create_route_file, hv, hs] at hok
  | true =>
    cases hsv : fs.hasFile (servicePathOf base (dbNameOf name)) with
    | false => simp [create_route_file, hv, hs, hsv] at hok
    | true =>
      cases hr : fs.hasFile (repoPathOf base (dbNameOf name)) with
      | false => simp [create_route_file, hv, hs, hsv, hr] at hok
      | true =>
        cases hw : fs.writeFails with
        | true => simp [create_route_file, hv, hs, hsv, hr, hw] at hok
        | false => simp [create_route_file, hv, hs, hsv, hr, hw]

/-- Witness for C7: generating order_item writes the route file with
db_name order_item and class_name OrderItem. -/
theorem name_derivation_witness :
    (create_route_file "order_item" (some "v1") "b" fsOrderItem).written =
      some (routePathOf "b" "v1" (dbNameOf "order_item"),
        route_code (dbNameOf "order_item")
          (classNameOf (dbNameOf "order_item")))
  ∧ dbNameOf "order_item" = "order_item".toLower
  ∧ classNameOf (dbNameOf "order_item") =
      String.mk (((splitOnUnderscore (dbNameOf "order_item").data).map
        pyCapitalize).foldl (fun acc part => acc ++ part) [])
  ∧ classNameOf "order_item" = "OrderItem"
  ∧ (∀ n₁ n₂ : String, dbNameOf n₁ = dbNameOf n₂ →
      classNameOf (dbNameOf n₁) = classNameOf (dbNameOf n₂)) :=
  name_derivation "order_item" "v1" "b" fsOrderItem (by decide) (by rfl)

/-- C8: a successful invocation writes the rendered template at
`<base>/api/<version>/<db_name>.py` and reports success; no hypothesis
constrains the api directory, which is created as needed
(`mkdir(parents=True, exist_ok=True)`), and a pre-existing file at the
route path changes nothing — it is overwritten unconditionally with the
same rendered text. -/
theorem route_write_overwrites_at_path (name v base : String) (fs : FS)
    (hv : v ≠ "")
    (hs : fs.hasFile (schemaPathOf base (dbNameOf name)) = true)
    (hsv : fs.hasFile (servicePathOf base (dbNameOf name)) = true)
    (hr : fs.hasFile (repoPathOf base (dbNameOf name)) = true)
    (hw : fs.writeFails = false) :
    create_route_file name (some v) base fs =
      ⟨true,
        ["✅ Route file created: " ++ routePathOf base v (dbNameOf name)],
        some (routePathOf base v (dbNameOf name),
          route_code (dbNameOf name) (classNameOf (dbNameOf name)))⟩
  ∧ create_route_file name (some v) base
      { fs with existingFiles :=
          (routePathOf base v (dbNameOf name) :: fs.existingFiles) } =
      create_route_file name (some v) base fs := by
  have hs0 := hs
  have hsv0 := hsv
  have hr0 := hr
  simp [FS.hasFile] at hs0 hsv0 hr0
  have hs2 : (routePathOf base v (dbNameOf name) ::
      fs.existingFiles).contains (schemaPathOf base (dbNameOf name)) =
      true := by simp [List.contains_cons, hs0]
  have hsv2 : (routePathOf base v (dbNameOf name) ::
      fs.existingFiles).contains (servicePathOf base (dbNameOf name)) =
      true := by simp [List.contains_cons, hsv0]
  have hr2 : (routePathOf base v (dbNameOf name) ::
      fs.existingFiles).contains (repoPathOf base (dbNameOf name)) =
      true := by simp [List.contains_cons, hr0]
  constructor
  · simp [create_route_file, hv, hs, hsv, hr, hw]
  · simp [create_route_file, FS.hasFile, hv, hs0, hsv0, hr0, hw,
      hs2, hsv2, hr2]

/-- Witness for C8: generating order_item against a filesystem holding the
three prerequisites succeeds, writes the rendered file at
b/api/v1/order_item.py, and behaves identically when that file already
exists. -/
theorem route_write_overwrites_at_path_witness :
    create_route_file "order_item" (some "v1") "b" fsOrderItem =
      ⟨true,
        ["✅ Route file created: " ++
          routePathOf "b" "v1" (dbNameOf "order_item")],
        some (routePathOf "b" "v1" (dbNameOf "order_item"),
          route_code (dbNameOf "order_item")
            (classNameOf (dbNameOf "order_item")))⟩
  ∧ create_route_file "order_item" (some "v1") "b"
      { fsOrderItem with existingFiles :=
          (routePathOf "b" "v1" (dbNameOf "order_item") ::
            fsOrderItem.existingFiles) } =
      create_route_file "order_item" (some "v1") "b" fsOrderItem :=
  route_write_overwrites_at_path "order_item" "v1" "b" fsOrderItem
    (by decide) (by rfl) (by rfl) (by rfl) rfl

/-- C10 counterexample: version="" is an explicit version argument, yet
Python's `if not version:` treats it as absent — with all three
prerequisite files present and no `api` directory, the call fails through
the resolver instead of succeeding, and equals the no-version call. -/
theorem empty_version_triggers_resolver :
    (create_route_file "x" (some "") "b" fsNoApi).ok = false ∧
    create_route_file "x" (some "") "b" fsNoApi =
      create_route_file "x" none "b" fsNoApi := by
  constructor
  · rfl
  · rfl

/-- C10 (amended to non-empty explicit versions): with a non-empty explicit
version the resolver is never invoked — the result ignores the api
directory state entirely — and given the three prerequisite files the
generation succeeds, creating the version directory itself. -/
theorem explicit_version_skips_resolver (name v base : String)
    (fs fs' : FS) (hv : v ≠ "")
    (he : fs'.existingFiles = fs.existingFiles)
    (hw : fs'.writeFails = fs.writeFails)
    (hwe : fs'.writeError = fs.writeError) :
    create_route_file name (some v) base fs' =
      create_route_file name (some v) base fs
  ∧ (fs.hasFile (schemaPathOf base (dbNameOf name)) = true →
     fs.hasFile (servicePathOf base (dbNameOf name)) = true →
     fs.hasFile (repoPathOf base (dbNameOf name)) = true →
     fs.writeFails = false →
      (create_route_file name (some v) base fs).ok = true) := by
  constructor
  · simp [create_route_file, hv, FS.hasFile, he, hw, hwe]
  · intro hs hsv hr hwf
    simp [create_route_file, hv, hs, hsv, hr, hwf]

/-- Witness for C10's amended claim: with no `api` directory at all,
generating order_item with explicit version v1 gives the same result as
with `api/v1` present, and that result succeeds. -/
theorem explicit_version_skips_resolver_witness :
    (create_route_file "order_item" (some "v1") "b" fsOrderItemNoApi =
      create_route_file "order_item" (some "v1") "b" fsOrderItem)
  ∧ (create_route_file "order_item" (some "v1") "b" fsOrderItem).ok =
      true :=
  ⟨(explicit_version_skips_resolver "order_item" "v1" "b"
      fsOrderItem fsOrderItemNoApi (by decide) rfl rfl rfl).1,
   (explicit_version_skips_resolver "order_item" "v1" "b"
      fsOrderItem fsOrderItemNoApi (by decide) rfl rfl rfl).2
      (by rfl) (by rfl) (by rfl) rfl⟩

/-- C4 counterexample: a version-not-found failure and an I/O write failure
return the same boolean False — the return value does not distinguish them;
only the printed messages differ. -/
theorem result_bool_indistinguishable :
    (create_route_file "x" none "b" fsNoApi).ok =
      (create_route_file "x" (some "v1") "b" fsWriteFail).ok
  ∧ (create_route_file "x" none "b" fsNoApi).ok = false
  ∧ (create_route_file "x" none "b" fsNoApi).messages ≠
      (create_route_file "x" (some "v1") "b" fsWriteFail).messages := by
  refine ⟨rfl, rfl, by decide⟩

/-- C4 (amended): every failure — not-found or I/O — is recovered at the
top level and surfaced as one ❌ message plus the boolean False with
nothing written, every success as one ✅ message plus True with the file
written; the failure kinds are distinguishable only through the message,
not through the boolean result. (No uncaught propagation: the embedded
generator is a total function into GenResult.) -/
theorem failures_surfaced_with_message (name : String)
    (version : Option String) (base : String) (fs : FS) :
    ((create_route_file name version base fs).ok = false →
      (create_route_file name version base fs).written = none ∧
      ∃ r, (create_route_file name version base fs).messages =
        ["❌ " ++ r])
  ∧ ((create_route_file name version base fs).ok = true →
      (∃ w, (create_route_file name version base fs).written = some w) ∧
      ∃ r, (create_route_file name version base fs).messages =
        ["✅ " ++ r]) := by
  rcases hres : (match version with
    | none => get_highest_numbered_api_version base fs
    | some v =>
        if v = "" then get_highest_numbered_api_version base fs
        else Except.ok v) with e | v
  · constructor
    · intro _
      refine ⟨?_, e, ?_⟩ <;> simp [create_route_file, hres]
    · intro h
      simp [create_route_file, hres] at h
  · cases hs : fs.hasFile (schemaPathOf base (dbNameOf name)) with
    | false =>
        constructor
        · intro _
          refine ⟨?_, "Schema file " ++
            schemaPathOf base (dbNameOf name) ++ " not found.", ?_⟩ <;>
            simp [create_route_file, hres, hs]
        · intro h
          simp [create_route_file, hres, hs] at h
    | true =>
      cases hsv : fs.hasFile (servicePathOf base (dbNameOf name)) with
      | false =>
          constructor
          · intro _
            refine ⟨?_, "Service file " ++
              servicePathOf base (dbNameOf name) ++ " not found.", ?_⟩ <;>
              simp [create_route_file, hres, hs, hsv]
          · intro h
            simp [create_route_file, hres, hs, hsv] at h
      | true =>
        cases hr : fs.hasFile (repoPathOf base (dbNameOf name)) with
        | false =>
            constructor
            · intro _
              refine ⟨?_, "Repository file " ++
                repoPathOf base (dbNameOf name) ++ " not found.", ?_⟩ <;>
                simp [create_route_file, hres, hs, hsv, hr]
            · intro h
              simp [create_route_file, hres, hs, hsv, hr] at h
        | true =>
          cases hw : fs.writeFails with
          | true =>
              constructor
              · intro _
                refine ⟨?_, "Failed to write route file: " ++
                  fs.writeError, ?_⟩ <;>
                  simp [create_route_file, hres, hs, hsv, hr, hw]
              · intro h
                simp [create_route_file, hres, hs, hsv, hr, hw] at h
          | false =>
              constructor
              · intro h
                simp [create_route_file, hres, hs, hsv, hr, hw] at h
              · intro _
                have hmsg : "✅ Route file created: " ++
                    routePathOf base v (dbNameOf name) =
                    "✅ " ++ ("Route file created: " ++
                      routePathOf base v (dbNameOf name)) := by
                  rw [← String.append_assoc]
                  rfl
                refine ⟨⟨(routePathOf base v (dbNameOf name),
                    route_code (dbNameOf name)
                      (classNameOf (dbNameOf name))), ?_⟩,
                  "Route file created: " ++
                    routePathOf base v (dbNameOf name), ?_⟩
                · simp [create_route_file, hres, hs, hsv, hr, hw]
                · rw [← hmsg]
                  simp [create_route_file, hres, hs, hsv, hr, hw]

/-- Witness for C4's amended claim at a failing and a succeeding run. -/
theorem failures_surfaced_with_message_witness :
    ((create_route_file "x" none "b" fsNoApi).written = none ∧
      ∃ r, (create_route_file "x" none "b" fsNoApi).messages =
        ["❌ " ++ r])
  ∧ ((∃ w, (create_route_file "order_item" (some "v1") "b"
        fsOrderItem).written = some w) ∧
      ∃ r, (create_route_file "order_item" (some "v1") "b"
        fsOrderItem).messages = ["✅ " ++ r]) :=
  ⟨(failures_surfaced_with_message "x" none "b" fsNoApi).1 rfl,
   (failures_surfaced_with_message "order_item" (some "v1") "b"
      fsOrderItem).2 (by rfl)⟩

set_option maxRecDepth 8000
set_option maxHeartbeats 4000000

/-- C2 (code bug, evaluated at the failing input): generating order_item
with all prerequisites present succeeds and writes the expected path, and
the text contains both OrderItem and order_item — but the fifth handler is
not the documented well-formed PATCH on /{id}: the unescaped `{id}` in the
source f-string interpolates Python's builtin `id`, so the emitted
decorator is `@router.patch("/<built-in function id>", ...)`, and the
emitted signature places the non-defaulted `payload` parameter after the
defaulted `id` parameter, which is a Python syntax error. -/
theorem generated_patch_endpoint_malformed :
    (create_route_file "order_item" (some "v1") "b" fsOrderItem).ok = true
  ∧ (create_route_file "order_item" (some "v1") "b" fsOrderItem).written =
      some ("b/api/v1/order_item.py", route_code "order_item" "OrderItem")
  ∧ StrContains (route_code "order_item" "OrderItem") "OrderItem"
  ∧ StrContains (route_code "order_item" "OrderItem") "order_item"
  ∧ StrContains (route_code "order_item" "OrderItem")
      "@router.patch(\"/<built-in function id>\", response_model=APIResponse["
  ∧ StrContains (route_code "order_item" "OrderItem")
      "    id: str = Path(..., description=\"ID of the order_item to update\"),\n    payload: OrderItemUpdate\n):\n"
    := by
  refine ⟨by rfl, by rfl, ?_, ?_, ?_, ?_⟩
  · simp only [route_code, String.append_assoc]
    iterate 7 apply StrContains.cons
    exact strContains_at "" "" (by rfl)
  · simp only [route_code, String.append_assoc]
    iterate 4 apply StrContains.cons
    exact strContains_at "" "" (by rfl)
  · simp only [route_code, String.append_assoc]
    iterate 185 apply StrContains.cons
    exact strContains_at "" "" (by rfl)
  · simp only [route_code, String.append_assoc]
    iterate 191 apply StrContains.cons
    exact strContains_seven (by rfl)

set_option maxRecDepth 512
set_option maxHeartbeats 200000

end FasterApi
